import Mathlib

/-!
Shallow embedding of the turn-processing core of `app.py` (a LangGraph
triage chatbot): the conversation state, the classifier, the router and
the three response handlers, together with a turn executor that models
one `graph.invoke` run.

The external LLM (`llm.invoke`) is modelled as an oracle indexed by call
number, `port : Nat -> Option String`; `none` models a call that throws.
In-place list mutation (`state['chat_history'].append(...)`) is modelled
by also returning the chat history as observable after the run, even when
the run fails partway, so that partial mutation is visible.
-/

/-- Message roles, modelling langchain HumanMessage vs AIMessage. -/
inductive Role where
  | user
  | assistant
deriving DecidableEq, Repr

/-- A chat message: role plus text content. -/
structure Message where
  role : Role
  content : String
deriving DecidableEq, Repr

/-- The LangGraph `AgentState` TypedDict from app.py: chat history, the
symptom text derived from the latest message, and the classified category
(kept as a string, as in the source). -/
structure AgentState where
  chat_history : List Message
  symptom : String
  category : String
deriving DecidableEq, Repr

/-- Boolean test that `n` is a leading segment of `h` (chars). -/
def prefOf : List Char → List Char → Bool
  | [], _ => true
  | _ :: _, [] => false
  | a :: as, b :: bs => (a = b) && prefOf as bs

/-- Boolean substring test on char lists: Python's `needle in hay`. -/
def subOf (needle : List Char) : List Char → Bool
  | [] => prefOf needle []
  | b :: bs => prefOf needle (b :: bs) || subOf needle bs

/-- Python's `needle in hay` substring containment on strings. -/
def strHas (hay needle : String) : Bool := subOf needle.data hay.data

/-- Python's `str.lower()` (ASCII-adequate model via `Char.toLower`). -/
def strLower (s : String) : String := ⟨s.data.map Char.toLower⟩

/-- Whitespace as stripped by Python's `str.strip()` (ASCII portion). -/
def isSpaceChar (c : Char) : Bool :=
  c = ' ' || c = '\t' || c = '\n' || c = '\r' || c = '\x0b' || c = '\x0c'

/-- Python's `str.strip()`: drop leading and trailing whitespace. -/
def pyStrip (s : String) : String :=
  ⟨(((s.data.dropWhile isSpaceChar).reverse.dropWhile isSpaceChar).reverse)⟩

/-- Python's `str.replace('_', ' ')`: each underscore becomes a space. -/
def underscoreToSpace (s : String) : String :=
  ⟨s.data.map (fun c => if c = '_' then ' ' else c)⟩

/-- Content of the last message, `chat_history[-1].content` (the Python
code would raise on an empty list; callers guard with `getLast?`). -/
def lastContentD (hist : List Message) : String :=
  match hist.getLast? with
  | some m => m.content
  | none => ""

/-- The fixed classification instruction prompt of `classify_symptom`,
embedding the symptom verbatim. -/
def classifyPrompt (symptom : String) : String :=
  "You are a helpful medical assistant. Classify the user\x27s statement into one of the following categories: "
    ++ "\x27General\x27, \x27Emergency\x27, or \x27Mental Health\x27. Your response should be a single word. "
    ++ "For example, if the user says \x27I have a fever\x27, you should respond with \x27General\x27. "
    ++ "If the user says \x27I\x27m having chest pains\x27, you should respond with \x27Emergency\x27. "
    ++ "If the user says \x27I feel anxious and sad\x27, you should respond with \x27Mental Health\x27."
    ++ "\n\nUser\x27s statement: \"" ++ symptom ++ "\""

/-- The ordered substring tests of `classify_symptom` (app.py lines
63-70) on the already-normalized response text, with the `general`
fallback. -/
def parseCat (category : String) : String :=
  if strHas category "general" then "general"
  else if strHas category "emergency" then "emergency"
  else if strHas category "mental" then "mental_health"
  else "general"

/-- The parsing rule of `classify_symptom` (app.py lines 60-70):
`category = response.content.strip().lower()`, then the ordered
substring tests. -/
def parseCategory (resp : String) : String :=
  parseCat (strLower (pyStrip resp))

/-- The annotation text appended by `classify_symptom` (app.py line 73):
note the capital "It" in the source f-string, and `replace('_', ' ')`
applied to the category. -/
def annotationText (category : String) : String :=
  "(Thinking... It seems like this might be a " ++ underscoreToSpace category ++ " concern.)"

/-- Node 1 `get_symptom`: store the content of the last chat message in
the `symptom` field. Python indexes `chat_history[-1]`, raising on an
empty list, modelled as `none`. -/
def get_symptom (s : AgentState) : Option AgentState :=
  match s.chat_history.getLast? with
  | none => none
  | some m => some { s with symptom := m.content }

/-- Node 2 `classify_symptom`: call the LLM with the classification
prompt, parse the category, and append the annotation message. A failed
LLM call (`none`) propagates before any mutation. -/
def classify_symptom (gen : String → Option String) (s : AgentState) : Option AgentState :=
  match gen (classifyPrompt s.symptom) with
  | none => none
  | some resp =>
    let category := parseCategory resp
    some { s with
            category := category,
            chat_history := s.chat_history
              ++ [Message.mk Role.assistant (annotationText category)] }

/-- The `response_text` template of `general_node` (app.py lines 82-86),
embedding the symptom verbatim. -/
def generalReplyText (symptom : String) : String :=
  "Based on what you\x27ve told me about \x27" ++ symptom
    ++ "\x27, this seems like a general health question. "
    ++ "I\x27m an AI assistant and not a medical professional. For any health concerns, it\x27s always best to consult with a doctor or a qualified healthcare provider. "
    ++ "They can give you accurate advice."

/-- Node 3 `general_node`: append the fixed-template assistant reply;
no LLM call. -/
def general_node (s : AgentState) : AgentState :=
  { s with chat_history := s.chat_history
      ++ [Message.mk Role.assistant (generalReplyText s.symptom)] }

/-- The `response_text` template of `emergency_node` (app.py lines
96-99), embedding the symptom verbatim. -/
def emergencyReplyText (symptom : String) : String :=
  "Based on what you\x27ve described as \x27" ++ symptom
    ++ "\x27, this could be a medical emergency. "
    ++ "Please do not wait. Contact your local emergency services immediately (like calling 911 in the US, 112 in Europe, or 108 in India) or go to the nearest emergency room. "
    ++ "Your health is the top priority, and getting immediate help is crucial."

/-- Node 4 `emergency_node`: append the fixed-template assistant reply;
no LLM call. -/
def emergency_node (s : AgentState) : AgentState :=
  { s with chat_history := s.chat_history
      ++ [Message.mk Role.assistant (emergencyReplyText s.symptom)] }

/-- Rendering of one message inside the Python f-string
`f"..{state['chat_history']}.."`: models the langchain object repr
(repr details such as extra kwargs are abstracted; no claim depends on
them). -/
def reprMessage (m : Message) : String :=
  match m.role with
  | Role.user => "HumanMessage(content=\x27" ++ m.content ++ "\x27)"
  | Role.assistant => "AIMessage(content=\x27" ++ m.content ++ "\x27)"

/-- Rendering of the whole chat history list inside the persona prompt,
modelling Python's list repr. -/
def renderHistory (hist : List Message) : String :=
  "[" ++ String.intercalate ", " (hist.map reprMessage) ++ "]"

/-- The fixed "Aura" persona preamble of `mental_health_node`
(app.py lines 110-119), before the conversation context. -/
def auraPreamble : String :=
  "You are \x27Aura\x27, a caring and empathetic mental health companion. Your goal is to provide a safe, supportive, and non-judgmental space for the user. "
    ++ "You are not a therapist, so you must not give medical advice, diagnoses, or treatment plans. Instead, you should listen, offer comfort, and provide helpful, safe, and general information. "
    ++ "Always include a disclaimer in your first response that you are an AI and not a substitute for professional help.\n\n"
    ++ "Here are your guidelines:\n"
    ++ "1.  **Be Empathetic:** Start by acknowledging the user\x27s feelings (e.g., \x27It sounds like you\x27re going through a lot,\x27 \x27Thank you for sharing that with me.\x27).\n"
    ++ "2.  **Encourage Expression:** Ask open-ended questions to help the user explore their feelings (e.g., \x27How long have you been feeling this way?\x27, \x27Is there anything specific that has been on your mind?\x27).\n"
    ++ "3.  **Offer General, Safe Coping Strategies:** Suggest things like mindfulness, deep breathing exercises, journaling, or connecting with friends/family.\n"
    ++ "4.  **Provide Resources:** If appropriate, suggest seeking professional help and provide information on how to find it (e.g., \x27talking to a therapist or counselor can be really helpful. You can find resources through the National Alliance on Mental Illness (NAMI) or by searching for local mental health services.\x27).\n"
    ++ "5.  **Maintain a Calm and Gentle Tone:** Use soft and reassuring language.\n\n"
    ++ "Current Conversation:\n"

/-- The persona prompt built by `mental_health_node` (app.py lines
110-125): preamble, the rendered chat history, then the content of
`chat_history[-1]` quoted after the "latest message" marker. -/
def mentalPrompt (hist : List Message) : String :=
  auraPreamble ++ renderHistory hist
    ++ "\n\nUser\x27s latest message: \"" ++ lastContentD hist ++ "\"\n\n"
    ++ "Aura\x27s Response:"

/-- Node 5 `mental_health_node`: call the LLM with the persona prompt and
append its raw response as an assistant message. A failed call (`none`)
propagates before any mutation. -/
def mental_health_node (gen : String → Option String) (s : AgentState) : Option AgentState :=
  match gen (mentalPrompt s.chat_history) with
  | none => none
  | some resp =>
    some { s with chat_history := s.chat_history ++ [Message.mk Role.assistant resp] }

/-- The router `symptom_router`: returns the category string. -/
def symptom_router (s : AgentState) : String := s.category

/-- The conditional-edge table passed to `add_conditional_edges`
(app.py lines 155-163); an unmapped key has no edge (`none`). -/
def routeTable (category : String) : Option String :=
  if category = "general" then some "general"
  else if category = "emergency" then some "emergency"
  else if category = "mental_health" then some "mental_health_conversation"
  else none

/-- Outcome of one `graph.invoke` run: the final state on success, the
chat history as observable after the run even on failure (the Python list
is mutated in place), and the LLM prompts sent (one per call attempted,
including a call that fails). -/
structure TurnOutcome where
  result : Option AgentState
  observed : List Message
  prompts : List String
deriving Repr

/-- One turn of the compiled graph: get_symptom, classify, route, then
the selected handler, with the LLM modelled as `port` (the response to
the n-th call, `none` = the call throws). -/
def runTurn (port : Nat → Option String) (hist : List Message) : TurnOutcome :=
  match hist.getLast? with
  | none => TurnOutcome.mk none hist []
  | some last =>
    let s0 : AgentState := AgentState.mk hist last.content ""
    let p1 := classifyPrompt s0.symptom
    match classify_symptom (fun _ => port 0) s0 with
    | none => TurnOutcome.mk none hist [p1]
    | some s1 =>
      match routeTable (symptom_router s1) with
      | none => TurnOutcome.mk none s1.chat_history [p1]
      | some handler =>
        if handler = "general" then
          TurnOutcome.mk (some (general_node s1)) (general_node s1).chat_history [p1]
        else if handler = "emergency" then
          TurnOutcome.mk (some (emergency_node s1)) (emergency_node s1).chat_history [p1]
        else
          let p2 := mentalPrompt s1.chat_history
          match mental_health_node (fun _ => port 1) s1 with
          | none => TurnOutcome.mk none s1.chat_history [p1, p2]
          | some s2 => TurnOutcome.mk (some s2) s2.chat_history [p1, p2]

/-- Modelled from the spec: the persona prompt C5 describes, identical to
`mentalPrompt` except that the text repeated verbatim after the marker is
the latest USER-authored message of the transcript (the spec's words
"the latest user message repeated verbatim"), not `chat_history[-1]`. -/
def specPersonaPrompt (hist : List Message) : String :=
  auraPreamble ++ renderHistory hist
    ++ "\n\nUser\x27s latest message: \""
    ++ lastContentD (hist.filter (fun m => m.role = Role.user)) ++ "\"\n\n"
    ++ "Aura\x27s Response:"

/-- Demo transcript used as concrete input: the session greeting plus
scenario C\x27s user message. -/
def demoHist : List Message :=
  [Message.mk Role.assistant "Hello! I\x27m Aura. I\x27m here to listen. How are you feeling today?",
   Message.mk Role.user "I feel anxious and sad"]

/-- Demo oracle for scenario C: classification call answers
"Mental Health", the persona call answers fixed text. -/
def demoPortC : Nat → Option String := fun n =>
  if n = 0 then some "Mental Health"
  else some "It sounds like you\x27re carrying a lot right now."

theorem parseCategory_mem (r : String) :
    parseCategory r = "general" ∨ parseCategory r = "emergency" ∨
      parseCategory r = "mental_health" := by
  unfold parseCategory parseCat
  split_ifs <;> simp

theorem runTurn_eq_general (port : Nat → Option String) (hist : List Message) (last : Message)
    (hlast : hist.getLast? = some last) (r : String) (h0 : port 0 = some r)
    (hc : parseCategory r = "general") :
    runTurn port hist =
      TurnOutcome.mk
        (some (general_node (AgentState.mk
          (hist ++ [Message.mk Role.assistant (annotationText "general")]) last.content "general")))
        (general_node (AgentState.mk
          (hist ++ [Message.mk Role.assistant (annotationText "general")]) last.content "general")).chat_history
        [classifyPrompt last.content] := by
  unfold runTurn
  rw [hlast]
  simp only [classify_symptom, h0, hc, symptom_router, routeTable]
  simp

theorem runTurn_eq_emergency (port : Nat → Option String) (hist : List Message) (last : Message)
    (hlast : hist.getLast? = some last) (r : String) (h0 : port 0 = some r)
    (hc : parseCategory r = "emergency") :
    runTurn port hist =
      TurnOutcome.mk
        (some (emergency_node (AgentState.mk
          (hist ++ [Message.mk Role.assistant (annotationText "emergency")]) last.content "emergency")))
        (emergency_node (AgentState.mk
          (hist ++ [Message.mk Role.assistant (annotationText "emergency")]) last.content "emergency")).chat_history
        [classifyPrompt last.content] := by
  unfold runTurn
  rw [hlast]
  simp only [classify_symptom, h0, hc, symptom_router, routeTable]
  simp

theorem runTurn_eq_mental (port : Nat → Option String) (hist : List Message) (last : Message)
    (hlast : hist.getLast? = some last) (r t : String) (h0 : port 0 = some r)
    (hc : parseCategory r = "mental_health") (h1 : port 1 = some t) :
    runTurn port hist =
      TurnOutcome.mk
        (some (AgentState.mk
          (hist ++ [Message.mk Role.assistant (annotationText "mental_health"),
                    Message.mk Role.assistant t]) last.content "mental_health"))
        (hist ++ [Message.mk Role.assistant (annotationText "mental_health"),
                  Message.mk Role.assistant t])
        [classifyPrompt last.content,
         mentalPrompt (hist ++ [Message.mk Role.assistant (annotationText "mental_health")])] := by
  unfold runTurn
  rw [hlast]
  simp only [classify_symptom, h0, hc, symptom_router, routeTable, mental_health_node, h1]
  simp

theorem runTurn_eq_mental_fail (port : Nat → Option String) (hist : List Message) (last : Message)
    (hlast : hist.getLast? = some last) (r : String) (h0 : port 0 = some r)
    (hc : parseCategory r = "mental_health") (h1 : port 1 = none) :
    runTurn port hist =
      TurnOutcome.mk none
        (hist ++ [Message.mk Role.assistant (annotationText "mental_health")])
        [classifyPrompt last.content,
         mentalPrompt (hist ++ [Message.mk Role.assistant (annotationText "mental_health")])] := by
  unfold runTurn
  rw [hlast]
  simp only [classify_symptom, h0, hc, symptom_router, routeTable, mental_health_node, h1]
  simp

theorem runTurn_eq_classify_fail (port : Nat → Option String) (hist : List Message) (last : Message)
    (hlast : hist.getLast? = some last) (h0 : port 0 = none) :
    runTurn port hist = TurnOutcome.mk none hist [classifyPrompt last.content] := by
  unfold runTurn
  rw [hlast]
  simp only [classify_symptom, h0]

theorem runTurn_empty (port : Nat → Option String) :
    runTurn port [] = TurnOutcome.mk none [] [] := rfl

theorem prefOf_append (s b : List Char) : prefOf s (s ++ b) = true := by
  induction s with
  | nil => rfl
  | cons c cs ih => simp [prefOf, ih]

theorem subOf_of_prefOf (s l : List Char) (h : prefOf s l = true) : subOf s l = true := by
  cases l with
  | nil => exact h
  | cons c cs => simp [subOf, h]

theorem subOf_sandwich (a s b : List Char) : subOf s (a ++ (s ++ b)) = true := by
  induction a with
  | nil => exact subOf_of_prefOf s (s ++ b) (prefOf_append s b)
  | cons c cs ih => simp [subOf, ih]

theorem strHas_sandwich (a s b : String) : strHas (a ++ (s ++ b)) s = true := by
  unfold strHas
  rw [String.data_append, String.data_append]
  exact subOf_sandwich a.data s.data b.data

theorem strAppend_left_cancel (a b c : String) (h : a ++ b = a ++ c) : b = c := by
  have hd : a.data ++ b.data = a.data ++ c.data := by
    rw [← String.data_append, ← String.data_append, h]
  have hbc := List.append_cancel_left hd
  cases b
  cases c
  cases hbc
  rfl

theorem mentalPrompt_ne_spec :
    mentalPrompt (demoHist ++ [Message.mk Role.assistant (annotationText "mental_health")])
      ≠ specPersonaPrompt (demoHist
          ++ [Message.mk Role.assistant (annotationText "mental_health")]) := by
  unfold mentalPrompt specPersonaPrompt
  intro he
  simp only [String.append_assoc] at he
  have h1 := strAppend_left_cancel _ _ _ he
  have h2 := strAppend_left_cancel _ _ _ h1
  have h3 := strAppend_left_cancel _ _ _ h2
  exact absurd h3 (by decide)

/-- C1 counterexample: the response "Emergency, not General" has trimmed
lower-cased text containing "emergency", yet the classifier assigns
category "general", because the "general" test runs first. -/
theorem C1_counterexample :
    strHas (strLower (pyStrip "Emergency, not General")) "emergency" = true ∧
    (classify_symptom (fun _ => some "Emergency, not General")
        (AgentState.mk [] "sym" "")).map AgentState.category = some "general" :=
  ⟨by decide, by decide⟩

/-- C1 (amended): a classification response whose trimmed lower-cased
text contains "emergency" and does NOT contain "general" is assigned
category "emergency", regardless of "mental" appearing elsewhere. -/
theorem C1_amended_thm (resp : String) (s : AgentState)
    (hg : strHas (strLower (pyStrip resp)) "general" = false)
    (he : strHas (strLower (pyStrip resp)) "emergency" = true) :
    (classify_symptom (fun _ => some resp) s).map AgentState.category = some "emergency" := by
  simp [classify_symptom, parseCategory, parseCat, hg, he]

/-- C1 witness: concrete instantiation of the amended theorem. -/
theorem C1_witness :
    (classify_symptom (fun _ => some "EMERGENCY!")
        (AgentState.mk [] "x" "")).map AgentState.category = some "emergency" :=
  C1_amended_thm "EMERGENCY!" (AgentState.mk [] "x" "") (by decide) (by decide)

/-- C2: the classifier stores the trim+lower+ordered-substring parse of
the Port response, and the rule is first-match-wins: "general" first,
then "emergency", then "mental", with a "general" fallback when none of
the three substrings occurs. -/
theorem C2_thm (resp t : String) (s : AgentState) (ht : t = strLower (pyStrip resp)) :
    (classify_symptom (fun _ => some resp) s).map AgentState.category = some (parseCat t) ∧
    (strHas t "general" = true → parseCat t = "general") ∧
    (strHas t "general" = false → strHas t "emergency" = true → parseCat t = "emergency") ∧
    (strHas t "general" = false → strHas t "emergency" = false →
      strHas t "mental" = true → parseCat t = "mental_health") ∧
    (strHas t "general" = false → strHas t "emergency" = false →
      strHas t "mental" = false → parseCat t = "general") := by
  subst ht
  refine ⟨by simp [classify_symptom, parseCategory], ?_, ?_, ?_, ?_⟩ <;>
    intros <;> simp [parseCat, *]

/-- C2 witness: the fallback case on the unparseable response of
scenario D. -/
theorem C2_witness :
    (classify_symptom (fun _ => some "I\x27m not sure")
        (AgentState.mk [] "x" "")).map AgentState.category
      = some (parseCat (strLower (pyStrip "I\x27m not sure"))) ∧
    parseCat (strLower (pyStrip "I\x27m not sure")) = "general" :=
  ⟨(C2_thm "I\x27m not sure" (strLower (pyStrip "I\x27m not sure"))
      (AgentState.mk [] "x" "") rfl).1,
   (C2_thm "I\x27m not sure" (strLower (pyStrip "I\x27m not sure"))
      (AgentState.mk [] "x" "") rfl).2.2.2.2 (by decide) (by decide) (by decide)⟩

/-- C3 counterexample: classification succeeds as mental_health but the
persona call fails; the failure propagates (result is none) yet the
observable transcript has gained exactly the annotation message — a
partial mutation, neither nothing nor the full two-message sequence. -/
theorem C3_counterexample :
    (runTurn (fun n => if n = 0 then some "Mental Health" else none) demoHist).result = none ∧
    (runTurn (fun n => if n = 0 then some "Mental Health" else none) demoHist).observed
      = demoHist ++ [Message.mk Role.assistant
          "(Thinking... It seems like this might be a mental health concern.)"] :=
  ⟨by decide, by decide⟩

/-- C3 (amended): if the classification call fails nothing is appended,
but if the classification succeeds as mental_health and the persona call
then fails, the turn fails with exactly the annotation already appended:
the partial mutation is observable. -/
theorem C3_amended_thm (port : Nat → Option String) (hist : List Message) (last : Message)
    (hlast : hist.getLast? = some last) :
    (port 0 = none →
      (runTurn port hist).result = none ∧ (runTurn port hist).observed = hist) ∧
    (∀ r, port 0 = some r → parseCategory r = "mental_health" → port 1 = none →
      (runTurn port hist).result = none ∧
      (runTurn port hist).observed
        = hist ++ [Message.mk Role.assistant (annotationText "mental_health")]) := by
  constructor
  · intro h0
    rw [runTurn_eq_classify_fail port hist last hlast h0]
    exact ⟨rfl, rfl⟩
  · intro r h0 hc h1
    rw [runTurn_eq_mental_fail port hist last hlast r h0 hc h1]
    exact ⟨rfl, rfl⟩

/-- C3 witness: both failure modes at concrete inputs. -/
theorem C3_witness :
    ((runTurn (fun _ => (none : Option String)) [Message.mk Role.user "hi"]).result = none ∧
     (runTurn (fun _ => (none : Option String)) [Message.mk Role.user "hi"]).observed
       = [Message.mk Role.user "hi"]) ∧
    ((runTurn (fun n => if n = 0 then some "mental" else none)
        [Message.mk Role.user "hi"]).result = none ∧
     (runTurn (fun n => if n = 0 then some "mental" else none)
        [Message.mk Role.user "hi"]).observed
       = [Message.mk Role.user "hi"]
         ++ [Message.mk Role.assistant (annotationText "mental_health")]) :=
  ⟨(C3_amended_thm (fun _ => none) [Message.mk Role.user "hi"]
      (Message.mk Role.user "hi") rfl).1 rfl,
   (C3_amended_thm (fun n => if n = 0 then some "mental" else none) [Message.mk Role.user "hi"]
      (Message.mk Role.user "hi") rfl).2 "mental" rfl (by decide) rfl⟩

/-- C4 counterexample: a transcript whose last element is an
assistant-authored greeting is not rejected — the turn completes
successfully and the Port is called once. -/
theorem C4_counterexample :
    ((runTurn (fun _ => some "General") [Message.mk Role.assistant "Hello!"]).result).isSome = true ∧
    (runTurn (fun _ => some "General") [Message.mk Role.assistant "Hello!"]).prompts.length = 1 :=
  ⟨by decide, by decide⟩

/-- C4 (amended): an empty prior transcript fails before any Port call
(no prompts sent), but a transcript ending in a non-user message is not
rejected: the Classifier prompt is always sent, built from the last
message's content regardless of its author. -/
theorem C4_amended_thm (port : Nat → Option String) (hist : List Message) (last : Message)
    (hlast : hist.getLast? = some last) :
    ((runTurn port []).result = none ∧ (runTurn port []).prompts = []) ∧
    (runTurn port hist).prompts.headD "" = classifyPrompt last.content ∧
    (runTurn port hist).prompts ≠ [] := by
  refine ⟨⟨by rw [runTurn_empty], by rw [runTurn_empty]⟩, ?_⟩
  cases h0 : port 0 with
  | none =>
    rw [runTurn_eq_classify_fail port hist last hlast h0]
    exact ⟨rfl, by simp⟩
  | some r =>
    rcases parseCategory_mem r with hc | hc | hc
    · rw [runTurn_eq_general port hist last hlast r h0 hc]
      exact ⟨rfl, by simp⟩
    · rw [runTurn_eq_emergency port hist last hlast r h0 hc]
      exact ⟨rfl, by simp⟩
    · cases h1 : port 1 with
      | none =>
        rw [runTurn_eq_mental_fail port hist last hlast r h0 hc h1]
        exact ⟨rfl, by simp⟩
      | some t =>
        rw [runTurn_eq_mental port hist last hlast r t h0 hc h1]
        exact ⟨rfl, by simp⟩

/-- C4 witness: instantiated on a greeting-only transcript. -/
theorem C4_witness :
    ((runTurn (fun _ => some "General") []).result = none ∧
     (runTurn (fun _ => some "General") []).prompts = []) ∧
    (runTurn (fun _ => some "General") [Message.mk Role.assistant "Hello!"]).prompts.headD ""
      = classifyPrompt (Message.mk Role.assistant "Hello!").content ∧
    (runTurn (fun _ => some "General") [Message.mk Role.assistant "Hello!"]).prompts ≠ [] :=
  C4_amended_thm (fun _ => some "General") [Message.mk Role.assistant "Hello!"]
    (Message.mk Role.assistant "Hello!") rfl

/-- C5 counterexample: in scenario C the second Port call's prompt is not
the spec's persona prompt (which repeats the latest USER message verbatim
after the "latest message" marker); it instead quotes `chat_history[-1]`,
which at that point is the classification annotation. -/
theorem C5_counterexample :
    (runTurn demoPortC demoHist).prompts.length = 2 ∧
    (runTurn demoPortC demoHist).prompts.getD 1 ""
      ≠ specPersonaPrompt (demoHist
          ++ [Message.mk Role.assistant (annotationText "mental_health")]) ∧
    (runTurn demoPortC demoHist).prompts.getD 1 ""
      = mentalPrompt (demoHist
          ++ [Message.mk Role.assistant (annotationText "mental_health")]) := by
  rw [runTurn_eq_mental demoPortC demoHist (Message.mk Role.user "I feel anxious and sad")
      rfl "Mental Health" "It sounds like you\x27re carrying a lot right now." rfl (by decide) rfl]
  exact ⟨rfl, mentalPrompt_ne_spec, rfl⟩

/-- C5 (amended): in a mental_health turn exactly two Port calls are
made, the Port's raw reply is appended unmodified, and the persona
prompt embeds the rendered transcript but repeats verbatim the content
of the LAST transcript message at that point — the classification
annotation, not the latest user message. -/
theorem C5_amended_thm (port : Nat → Option String) (hist : List Message) (last : Message)
    (r t : String) (hlast : hist.getLast? = some last) (h0 : port 0 = some r)
    (hc : parseCategory r = "mental_health") (h1 : port 1 = some t) :
    (runTurn port hist).prompts.length = 2 ∧
    (runTurn port hist).result
      = some (AgentState.mk
          (hist ++ [Message.mk Role.assistant (annotationText "mental_health"),
                    Message.mk Role.assistant t]) last.content "mental_health") ∧
    (runTurn port hist).prompts.getD 1 ""
      = auraPreamble
          ++ renderHistory (hist ++ [Message.mk Role.assistant (annotationText "mental_health")])
          ++ "\n\nUser\x27s latest message: \"" ++ annotationText "mental_health" ++ "\"\n\n"
          ++ "Aura\x27s Response:" := by
  rw [runTurn_eq_mental port hist last hlast r t h0 hc h1]
  refine ⟨rfl, rfl, ?_⟩
  show mentalPrompt (hist ++ [Message.mk Role.assistant (annotationText "mental_health")]) = _
  unfold mentalPrompt lastContentD
  rw [List.getLast?_concat]

/-- C5 witness: scenario C instantiation. -/
theorem C5_witness :
    (runTurn demoPortC demoHist).prompts.length = 2 ∧
    (runTurn demoPortC demoHist).result
      = some (AgentState.mk
          (demoHist ++ [Message.mk Role.assistant (annotationText "mental_health"),
                        Message.mk Role.assistant "It sounds like you\x27re carrying a lot right now."])
          (Message.mk Role.user "I feel anxious and sad").content "mental_health") ∧
    (runTurn demoPortC demoHist).prompts.getD 1 ""
      = auraPreamble
          ++ renderHistory (demoHist ++ [Message.mk Role.assistant (annotationText "mental_health")])
          ++ "\n\nUser\x27s latest message: \"" ++ annotationText "mental_health" ++ "\"\n\n"
          ++ "Aura\x27s Response:" :=
  C5_amended_thm demoPortC demoHist (Message.mk Role.user "I feel anxious and sad")
    "Mental Health" "It sounds like you\x27re carrying a lot right now."
    rfl rfl (by decide) rfl

/-- C6: for every category, a successful turn returns the input
transcript unchanged (same messages, same order) followed by exactly two
newly appended messages — the classification annotation and the reply —
and the observable history equals the returned one. -/
theorem C6_thm (port : Nat → Option String) (hist : List Message) (last : Message)
    (r0 r1 : String) (hlast : hist.getLast? = some last)
    (h0 : port 0 = some r0) (h1 : port 1 = some r1) :
    ∃ st annot reply,
      (runTurn port hist).result = some st ∧
      st.chat_history = hist ++ [annot, reply] ∧
      (runTurn port hist).observed = st.chat_history := by
  rcases parseCategory_mem r0 with hc | hc | hc
  · rw [runTurn_eq_general port hist last hlast r0 h0 hc]
    refine ⟨_, Message.mk Role.assistant (annotationText "general"),
            Message.mk Role.assistant (generalReplyText last.content), rfl, ?_, rfl⟩
    simp [general_node]
  · rw [runTurn_eq_emergency port hist last hlast r0 h0 hc]
    refine ⟨_, Message.mk Role.assistant (annotationText "emergency"),
            Message.mk Role.assistant (emergencyReplyText last.content), rfl, ?_, rfl⟩
    simp [emergency_node]
  · rw [runTurn_eq_mental port hist last hlast r0 r1 h0 hc h1]
    exact ⟨_, _, _, rfl, rfl, rfl⟩

/-- C6 witness: scenario A instantiation. -/
theorem C6_witness :
    ∃ st annot reply,
      (runTurn (fun _ => some "General")
        [Message.mk Role.assistant "Hello!", Message.mk Role.user "I have a fever"]).result
        = some st ∧
      st.chat_history
        = [Message.mk Role.assistant "Hello!", Message.mk Role.user "I have a fever"]
            ++ [annot, reply] ∧
      (runTurn (fun _ => some "General")
        [Message.mk Role.assistant "Hello!", Message.mk Role.user "I have a fever"]).observed
        = st.chat_history :=
  C6_thm (fun _ => some "General")
    [Message.mk Role.assistant "Hello!", Message.mk Role.user "I have a fever"]
    (Message.mk Role.user "I have a fever") "General" "General" rfl rfl rfl

/-- C7: the category stored by the classifier is always one of the three
enum values, the conditional-edge table maps each of the three to its
handler, and the lookup never falls through to the missing-edge branch. -/
theorem C7_thm (gen : String → Option String) (s s' : AgentState)
    (h : classify_symptom gen s = some s') :
    (s'.category = "general" ∨ s'.category = "emergency" ∨ s'.category = "mental_health") ∧
    (∃ hnd, routeTable (symptom_router s') = some hnd) ∧
    routeTable "general" = some "general" ∧
    routeTable "emergency" = some "emergency" ∧
    routeTable "mental_health" = some "mental_health_conversation" := by
  unfold classify_symptom at h
  cases hgen : gen (classifyPrompt s.symptom) with
  | none => rw [hgen] at h; cases h
  | some r =>
    rw [hgen] at h
    simp only [Option.some.injEq] at h
    subst h
    have hmem := parseCategory_mem r
    refine ⟨hmem, ?_, rfl, rfl, rfl⟩
    rcases hmem with hc | hc | hc
    · exact ⟨"general", by simp [symptom_router, routeTable, hc]⟩
    · exact ⟨"emergency", by simp [symptom_router, routeTable, hc]⟩
    · exact ⟨"mental_health_conversation", by simp [symptom_router, routeTable, hc]⟩

/-- C7 witness: instantiation on an "Emergency" classification. -/
theorem C7_witness :
    ((AgentState.mk [Message.mk Role.assistant (annotationText "emergency")] "x" "emergency").category = "general" ∨
     (AgentState.mk [Message.mk Role.assistant (annotationText "emergency")] "x" "emergency").category = "emergency" ∨
     (AgentState.mk [Message.mk Role.assistant (annotationText "emergency")] "x" "emergency").category = "mental_health") ∧
    (∃ hnd, routeTable (symptom_router
      (AgentState.mk [Message.mk Role.assistant (annotationText "emergency")] "x" "emergency")) = some hnd) ∧
    routeTable "general" = some "general" ∧
    routeTable "emergency" = some "emergency" ∧
    routeTable "mental_health" = some "mental_health_conversation" :=
  C7_thm (fun _ => some "Emergency") (AgentState.mk [] "x" "")
    (AgentState.mk [Message.mk Role.assistant (annotationText "emergency")] "x" "emergency")
    (by decide)

/-- C8: the General and Emergency handlers append fixed-template replies
that are functions of the symptom alone and embed it verbatim as a
substring; a general or emergency turn makes exactly one Port call (the
Classifier's) and ends with the corresponding handler's reply. -/
theorem C8_thm (port : Nat → Option String) (hist : List Message) (last : Message)
    (r : String) (hlast : hist.getLast? = some last) (h0 : port 0 = some r) :
    (∀ s : AgentState, general_node s
      = { s with chat_history := s.chat_history
            ++ [Message.mk Role.assistant (generalReplyText s.symptom)] }) ∧
    (∀ s : AgentState, emergency_node s
      = { s with chat_history := s.chat_history
            ++ [Message.mk Role.assistant (emergencyReplyText s.symptom)] }) ∧
    (∀ sym : String, strHas (generalReplyText sym) sym = true) ∧
    (∀ sym : String, strHas (emergencyReplyText sym) sym = true) ∧
    (parseCategory r = "general" →
      (runTurn port hist).prompts.length = 1 ∧
      (runTurn port hist).result
        = some (general_node (AgentState.mk
            (hist ++ [Message.mk Role.assistant (annotationText "general")])
            last.content "general"))) ∧
    (parseCategory r = "emergency" →
      (runTurn port hist).prompts.length = 1 ∧
      (runTurn port hist).result
        = some (emergency_node (AgentState.mk
            (hist ++ [Message.mk Role.assistant (annotationText "emergency")])
            last.content "emergency"))) := by
  refine ⟨fun s => rfl, fun s => rfl, ?_, ?_, ?_, ?_⟩
  · intro sym
    unfold generalReplyText
    simp only [String.append_assoc]
    exact strHas_sandwich _ _ _
  · intro sym
    unfold emergencyReplyText
    simp only [String.append_assoc]
    exact strHas_sandwich _ _ _
  · intro hc
    rw [runTurn_eq_general port hist last hlast r h0 hc]
    exact ⟨rfl, rfl⟩
  · intro hc
    rw [runTurn_eq_emergency port hist last hlast r h0 hc]
    exact ⟨rfl, rfl⟩

/-- C8 witness: scenario B instantiation. -/
theorem C8_witness :
    strHas (generalReplyText "I have a fever") "I have a fever" = true ∧
    strHas (emergencyReplyText "I\x27m having chest pains") "I\x27m having chest pains" = true ∧
    (runTurn (fun _ => some "Emergency")
      [Message.mk Role.user "I\x27m having chest pains"]).prompts.length = 1 ∧
    (runTurn (fun _ => some "Emergency")
      [Message.mk Role.user "I\x27m having chest pains"]).result
      = some (emergency_node (AgentState.mk
          ([Message.mk Role.user "I\x27m having chest pains"]
            ++ [Message.mk Role.assistant (annotationText "emergency")])
          "I\x27m having chest pains" "emergency")) := by
  have h := C8_thm (fun _ => some "Emergency")
    [Message.mk Role.user "I\x27m having chest pains"]
    (Message.mk Role.user "I\x27m having chest pains") "Emergency" rfl rfl
  exact ⟨h.2.2.1 "I have a fever", h.2.2.2.1 "I\x27m having chest pains",
         (h.2.2.2.2.2 (by decide)).1, (h.2.2.2.2.2 (by decide)).2⟩

/-- C9: the symptom field is set at the start of the turn to the content
of the last message of the prior transcript, and no later stage — the
Classifier, either fixed handler, or the Mental-Health handler — ever
modifies it: a successful turn's final symptom equals that content. -/
theorem C9_thm (port : Nat → Option String) (hist : List Message) (last : Message)
    (gen : String → Option String) (st : AgentState)
    (hlast : hist.getLast? = some last) :
    (∀ s s', classify_symptom gen s = some s' → s'.symptom = s.symptom) ∧
    (∀ s, (general_node s).symptom = s.symptom) ∧
    (∀ s, (emergency_node s).symptom = s.symptom) ∧
    (∀ s s', mental_health_node gen s = some s' → s'.symptom = s.symptom) ∧
    ((runTurn port hist).result = some st → st.symptom = last.content) := by
  refine ⟨?_, fun s => rfl, fun s => rfl, ?_, ?_⟩
  · intro s s' h
    unfold classify_symptom at h
    cases hgen : gen (classifyPrompt s.symptom) with
    | none => rw [hgen] at h; cases h
    | some r => rw [hgen] at h; simp only [Option.some.injEq] at h; subst h; rfl
  · intro s s' h
    unfold mental_health_node at h
    cases hgen : gen (mentalPrompt s.chat_history) with
    | none => rw [hgen] at h; cases h
    | some r => rw [hgen] at h; simp only [Option.some.injEq] at h; subst h; rfl
  · intro h
    cases h0 : port 0 with
    | none => rw [runTurn_eq_classify_fail port hist last hlast h0] at h; cases h
    | some r =>
      rcases parseCategory_mem r with hc | hc | hc
      · rw [runTurn_eq_general port hist last hlast r h0 hc] at h
        simp only [Option.some.injEq] at h
        subst h
        rfl
      · rw [runTurn_eq_emergency port hist last hlast r h0 hc] at h
        simp only [Option.some.injEq] at h
        subst h
        rfl
      · cases h1 : port 1 with
        | none => rw [runTurn_eq_mental_fail port hist last hlast r h0 hc h1] at h; cases h
        | some t =>
          rw [runTurn_eq_mental port hist last hlast r t h0 hc h1] at h
          simp only [Option.some.injEq] at h
          subst h
          rfl

/-- C9 witness: a successful general turn at concrete input. -/
theorem C9_witness :
    (general_node (AgentState.mk
        ([Message.mk Role.user "hi"]
          ++ [Message.mk Role.assistant (annotationText "general")])
        "hi" "general")).symptom
      = (Message.mk Role.user "hi").content :=
  (C9_thm (fun _ => some "General") [Message.mk Role.user "hi"] (Message.mk Role.user "hi")
      (fun _ => some "ok")
      (general_node (AgentState.mk
        ([Message.mk Role.user "hi"]
          ++ [Message.mk Role.assistant (annotationText "general")])
        "hi" "general"))
      rfl).2.2.2.2
    (congrArg TurnOutcome.result
      (runTurn_eq_general (fun _ => some "General") [Message.mk Role.user "hi"]
        (Message.mk Role.user "hi") rfl "General" rfl (by decide)))

/-- C10 counterexample: the annotation actually appended reads
"(Thinking... It seems ...)" with a capital "It", not the exact
lowercase "it" wording the claim states. -/
theorem C10_counterexample :
    (classify_symptom (fun _ => some "Mental Health") (AgentState.mk [] "x" "")).map
        (fun s => (s.chat_history.getLastD (Message.mk Role.user "")).content)
      = some "(Thinking... It seems like this might be a mental health concern.)" ∧
    ("(Thinking... It seems like this might be a mental health concern.)"
      ≠ "(Thinking... it seems like this might be a mental health concern.)") :=
  ⟨by decide, by decide⟩

/-- C10 (amended): the appended annotation is assistant-authored with
text "(Thinking... It seems like this might be a {category} concern.)"
(capital "It"), underscores in the category rendered as spaces, so
mental_health renders as "mental health". -/
theorem C10_amended_thm (gen : String → Option String) (s s' : AgentState)
    (h : classify_symptom gen s = some s') :
    s'.chat_history = s.chat_history
      ++ [Message.mk Role.assistant
           ("(Thinking... It seems like this might be a "
              ++ underscoreToSpace s'.category ++ " concern.)")] ∧
    underscoreToSpace "mental_health" = "mental health" := by
  unfold classify_symptom at h
  cases hgen : gen (classifyPrompt s.symptom) with
  | none => rw [hgen] at h; cases h
  | some r =>
    rw [hgen] at h
    simp only [Option.some.injEq] at h
    subst h
    exact ⟨by simp [annotationText], by decide⟩

/-- C10 witness. -/
theorem C10_witness :
    (AgentState.mk
        [Message.mk Role.assistant "(Thinking... It seems like this might be a mental health concern.)"]
        "x" "mental_health").chat_history
      = (AgentState.mk [] "x" "").chat_history
        ++ [Message.mk Role.assistant
             ("(Thinking... It seems like this might be a "
                ++ underscoreToSpace (AgentState.mk
                    [Message.mk Role.assistant "(Thinking... It seems like this might be a mental health concern.)"]
                    "x" "mental_health").category ++ " concern.)")] ∧
    underscoreToSpace "mental_health" = "mental health" :=
  C10_amended_thm (fun _ => some "Mental Health") (AgentState.mk [] "x" "")
    (AgentState.mk
      [Message.mk Role.assistant "(Thinking... It seems like this might be a mental health concern.)"]
      "x" "mental_health")
    (by decide)
